import Mathlib

/-!
Verification of the recipe-explorer backend (FastAPI + SQLAlchemy + Postgres).

The relational store (`src/models.py`) is embedded as lists of rows plus the
id sequences; the endpoint handlers of `src/api/main.py` and the seeder of
`src/seed.py` are embedded as pure functions over that store.  SQL `ILIKE`
is embedded as an executable pattern matcher over lists of characters, with
`%`, `_` wildcards and `\` escape, comparing characters case-insensitively
(ASCII case folding, which is where Python `.lower()`, Postgres `lower()`
and `ILIKE` agree).  Python `str.strip()` and `str.splitlines()` are
embedded over the complete whitespace and line-break character sets they
recognise.
-/

namespace RecipeApp

/-- Row of the `categories` table (`src/models.py`, class `Category`). -/
structure CategoryRow where
  id : Int
  name : String
deriving DecidableEq, Repr

/-- Row of the `recipes` table (`src/models.py`, class `Recipe`).  The
`ingredients` column is the newline-joined text blob; `image_url` is the
only nullable column. -/
structure RecipeRow where
  id : Int
  title : String
  description : String
  image_url : Option String
  ingredients : String
  instructions : String
  category_id : Int
deriving DecidableEq, Repr

/-- Row of the `favorites` table (`src/models.py`, class `Favorite`). -/
structure FavoriteRow where
  id : Int
  user_id : Int
  recipe_id : Int
deriving DecidableEq, Repr

/-- The relational store: the three tables plus the id sequences backing the
integer surrogate keys. -/
structure Store where
  categories : List CategoryRow
  recipes : List RecipeRow
  favorites : List FavoriteRow
  nextCategoryId : Int
  nextRecipeId : Int
  nextFavoriteId : Int
deriving DecidableEq, Repr

/-- Response model `RecipeListOut` (`src/schemas.py`): the short form used by
the recipe list, with no ingredients or instructions. -/
structure RecipeListOut where
  id : Int
  title : String
  description : String
  image_url : Option String
  category_id : Int
deriving DecidableEq, Repr

/-- Response model `RecipeDetailOut` (`src/schemas.py`). -/
structure RecipeDetailOut where
  id : Int
  title : String
  description : String
  image_url : Option String
  ingredients : List String
  instructions : String
  category_id : Int
  category_name : String
deriving DecidableEq, Repr

/-- Request model `FavoriteCreateIn` (`src/schemas.py`). -/
structure FavoriteCreateIn where
  user_id : Int
  recipe_id : Int
deriving DecidableEq, Repr

/-- Response model `FavoriteOut` (`src/schemas.py`). -/
structure FavoriteOut where
  id : Int
  user_id : Int
  recipe_id : Int
  recipe_title : String
  recipe_image_url : Option String
deriving DecidableEq, Repr

/-- Errors a handler can terminate with: the `HTTPException` of FastAPI and
the `IntegrityError` of SQLAlchemy (which `add_favorite` may re-raise and which
an unguarded flush propagates). -/
inductive ApiError where
  | httpException (status : Nat) (detail : String)
  | integrityError
deriving DecidableEq, Repr

/-- ASCII case folding, the common core of Python `str.lower`, Postgres
`lower` and the case-insensitivity of `ILIKE`. -/
def lowerChar (c : Char) : Char :=
  if 'A' ≤ c ∧ c ≤ 'Z' then Char.ofNat (c.toNat + 32) else c

/-- Characters for which Python `str.isspace()` holds — exactly the set
that a bare `str.strip()` removes: the ASCII whitespace and information
separators, next-line and no-break space, Ogham space mark, the U+2000
to U+200A spaces, the line and paragraph separators, narrow no-break
space, medium mathematical space and ideographic space. -/
def isPySpace (c : Char) : Bool :=
  c == ' ' || c == '\t' || c == '\n' || c == '\x0b' || c == '\x0c' || c == '\r' ||
  c == '\x1c' || c == '\x1d' || c == '\x1e' || c == '\x1f' || c == '\x85' || c == '\xa0' ||
  c == '\u1680' || c == '\u2000' || c == '\u2001' || c == '\u2002' || c == '\u2003' ||
  c == '\u2004' || c == '\u2005' || c == '\u2006' || c == '\u2007' || c == '\u2008' ||
  c == '\u2009' || c == '\u200a' || c == '\u2028' || c == '\u2029' || c == '\u202f' ||
  c == '\u205f' || c == '\u3000'

/-- Python `str.strip()`: drop leading and trailing whitespace. -/
def stripChars (s : List Char) : List Char :=
  ((s.dropWhile isPySpace).reverse.dropWhile isPySpace).reverse

/-- The complete set of line-break characters recognised by Python
`str.splitlines()`. -/
def isLineBreak (c : Char) : Bool :=
  c == '\n' || c == '\r' || c == '\x0b' || c == '\x0c' ||
  c == '\x1c' || c == '\x1d' || c == '\x1e' || c == '\x85' ||
  c == '\u2028' || c == '\u2029'

/-- Worker for `splitlines`; `acc` holds the current line reversed. -/
def splitlinesAux : List Char → List Char → List (List Char)
  | acc, [] => if acc.isEmpty then [] else [acc.reverse]
  | acc, '\r' :: '\n' :: rest => acc.reverse :: splitlinesAux [] rest
  | acc, c :: rest =>
    if isLineBreak c then acc.reverse :: splitlinesAux [] rest
    else splitlinesAux (c :: acc) rest

/-- Python `str.splitlines()`: split at line breaks, treating `\r\n` as a
single break and not reporting a trailing empty line. -/
def splitlines (s : List Char) : List (List Char) :=
  splitlinesAux [] s

/-- SQL `ILIKE` pattern matching over whole strings: `%` matches any
sequence, `_` any single character, `\` escapes the next pattern character,
and plain characters compare after case folding.  A pattern ending in a
bare `\` matches nothing (Postgres rejects such patterns). -/
def ilikeMatch : List Char → List Char → Bool
  | [], s => s.isEmpty
  | c :: ps, s =>
    if c = '%' then
      s.tails.any (fun t => ilikeMatch ps t)
    else if c = '\\' then
      match ps, s with
      | p2 :: ps2, d :: s2 => (lowerChar p2 == lowerChar d) && ilikeMatch ps2 s2
      | _, _ => false
    else
      match s with
      | [] => false
      | d :: s2 => (if c = '_' then true else lowerChar c == lowerChar d) && ilikeMatch ps s2

/-- A pattern fragment containing no `ILIKE` metacharacter. -/
def noMeta (p : List Char) : Prop :=
  ∀ c ∈ p, c ≠ '%' ∧ c ≠ '_' ∧ c ≠ '\\'

/-- Freedom from metacharacters is checkable. -/
instance noMetaDecidable (p : List Char) : Decidable (noMeta p) := by
  unfold noMeta
  infer_instance

/-- The pattern `f"%{q.strip()}%"` that `list_recipes` passes to `ilike`. -/
def like_pattern (q : String) : List Char :=
  '%' :: (stripChars q.toList ++ ['%'])

/-- Category filter of `list_recipes`: `Recipe.category_id == category_id`
is added to the statement only when the parameter is present. -/
def matches_category (copt : Option Int) (r : RecipeRow) : Bool :=
  match copt with
  | none => true
  | some c => r.category_id == c

/-- Query filter of `list_recipes`: guarded by Python truthiness (`if q:`),
then `or_(Recipe.title.ilike(like), Recipe.ingredients.ilike(like))`. -/
def matches_q (qopt : Option String) (r : RecipeRow) : Bool :=
  match qopt with
  | none => true
  | some q =>
    if q = "" then true
    else ilikeMatch (like_pattern q) r.title.toList ||
      ilikeMatch (like_pattern q) r.ingredients.toList

/-- Projection to the short response form built inside `list_recipes`. -/
def shortForm (r : RecipeRow) : RecipeListOut :=
  ⟨r.id, r.title, r.description, r.image_url, r.category_id⟩

/-- The rows selected by `list_recipes`: both filters applied, then
`order_by(Recipe.id.asc())`. -/
def list_recipes_rows (db : Store) (copt : Option Int) (qopt : Option String) :
    List RecipeRow :=
  (db.recipes.filter (fun r => matches_category copt r && matches_q qopt r)).insertionSort
    (fun a b => a.id ≤ b.id)

/-- Handler `list_recipes` (`src/api/main.py`). -/
def list_recipes (db : Store) (copt : Option Int) (qopt : Option String) :
    List RecipeListOut :=
  (list_recipes_rows db copt qopt).map shortForm

/-- Handler `get_recipe` (`src/api/main.py`): 404 when `db.get` finds no
row, otherwise category-name resolution and the ingredient pipeline
`[line.strip() for line in recipe.ingredients.splitlines() if line.strip()]`. -/
def get_recipe (recipe_id : Int) (db : Store) : Except ApiError RecipeDetailOut :=
  match db.recipes.find? (fun r => r.id == recipe_id) with
  | none => .error (.httpException 404 "Recipe not found")
  | some recipe =>
    let category := db.categories.find? (fun c => c.id == recipe.category_id)
    let ingredients :=
      (((splitlines recipe.ingredients.toList).map stripChars).filter
        (fun l => !l.isEmpty)).map String.mk
    .ok ⟨recipe.id, recipe.title, recipe.description, recipe.image_url,
      ingredients, recipe.instructions, recipe.category_id,
      (category.map (fun c => c.name)).getD ""⟩

/-- The `FavoriteOut` payload `add_favorite` builds from a favorite row and
the recipe looked up at the start of the handler. -/
def favorite_out (f : FavoriteRow) (recipe : RecipeRow) : FavoriteOut :=
  ⟨f.id, f.user_id, f.recipe_id, recipe.title, recipe.image_url⟩

/-- The `except IntegrityError` block of `add_favorite`: after rollback the
handler re-reads the row for the pair; if it exists it is returned as a
success, otherwise the bare `raise` re-surfaces the original storage
error. -/
def handle_duplicate_favorite (recipe : RecipeRow) (existing : Option FavoriteRow) :
    Except ApiError FavoriteOut :=
  match existing with
  | some e => .ok (favorite_out e recipe)
  | none => .error .integrityError

/-- Handler `add_favorite` (`src/api/main.py`).  The commit raises an
`IntegrityError` exactly when the store already holds a row for the
(user_id, recipe_id) pair, by the `uq_favorites_user_recipe` constraint;
a successful commit appends the row and advances the id sequence. -/
def add_favorite (payload : FavoriteCreateIn) (db : Store) :
    Except ApiError FavoriteOut × Store :=
  match db.recipes.find? (fun r => r.id == payload.recipe_id) with
  | none => (.error (.httpException 404 "Recipe not found"), db)
  | some recipe =>
    if db.favorites.any
        (fun f => f.user_id == payload.user_id && f.recipe_id == payload.recipe_id) then
      (handle_duplicate_favorite recipe
        (db.favorites.find?
          (fun f => f.user_id == payload.user_id && f.recipe_id == payload.recipe_id)), db)
    else
      let fav : FavoriteRow := ⟨db.nextFavoriteId, payload.user_id, payload.recipe_id⟩
      (.ok (favorite_out fav recipe),
        ⟨db.categories, db.recipes, db.favorites ++ [fav],
          db.nextCategoryId, db.nextRecipeId, db.nextFavoriteId + 1⟩)

/-- Helper `_nl` of `src/seed.py`: store ingredients as newline-delimited
text. -/
def nl (items : List String) : String :=
  String.intercalate "\n" items

/-- The five categories inserted by the seeder, with the ids the flush
assigns from the category id sequence. -/
def seed_categories (firstId : Int) : List CategoryRow :=
  [⟨firstId, "Breakfast"⟩, ⟨firstId + 1, "Lunch"⟩, ⟨firstId + 2, "Dinner"⟩,
    ⟨firstId + 3, "Dessert"⟩, ⟨firstId + 4, "Drinks"⟩]

/-- The seven recipes inserted by the seeder (`src/seed.py`), parametrised
by the first recipe id and the category ids obtained from the flush. -/
def seed_recipes (firstId breakfastId lunchId dinnerId dessertId drinksId : Int) :
    List RecipeRow :=
  [⟨firstId, "Retro Blueberry Pancakes",
    "Fluffy pancakes with a sweet blueberry pop—Saturday morning vibes.",
    some "https://images.unsplash.com/photo-1528207776546-365bb710ee93?auto=format&fit=crop&w=1200&q=60",
    nl ["1 cup flour", "2 tbsp sugar", "2 tsp baking powder", "1 cup milk",
      "1 egg", "1 cup blueberries", "Butter for pan"],
    "Whisk dry ingredients. Add milk and egg, mix until just combined. Fold in blueberries. Cook on a buttered skillet until golden on both sides.",
    breakfastId⟩,
   ⟨firstId + 1, "Neon Avocado Toast",
    "Crispy toast, creamy avocado, and a zing of lime.",
    some "https://images.unsplash.com/photo-1551183053-bf91a1d81141?auto=format&fit=crop&w=1200&q=60",
    nl ["2 slices sourdough", "1 ripe avocado", "1/2 lime", "Salt + pepper",
      "Chili flakes (optional)"],
    "Toast bread. Mash avocado with lime, salt, and pepper. Spread thickly and finish with chili flakes.",
    breakfastId⟩,
   ⟨firstId + 2, "Classic Diner Grilled Cheese",
    "Golden, melty, and unapologetically nostalgic.",
    some "https://images.unsplash.com/photo-1528735602780-2552fd46c7af?auto=format&fit=crop&w=1200&q=60",
    nl ["2 slices bread", "2 slices cheddar", "1 tbsp butter"],
    "Butter bread, sandwich cheese, grill low and slow until crisp and gooey.",
    lunchId⟩,
   ⟨firstId + 3, "Cosmic Tomato Soup",
    "Smooth tomato soup with a basil swirl—pairs perfectly with grilled cheese.",
    some "https://images.unsplash.com/photo-1547592166-23ac45744acd?auto=format&fit=crop&w=1200&q=60",
    nl ["1 tbsp olive oil", "1 small onion", "2 cloves garlic",
      "1 can crushed tomatoes", "2 cups broth", "Salt + pepper", "Basil (optional)"],
    "Sauté onion and garlic. Add tomatoes and broth. Simmer 15 minutes, blend smooth, season to taste, garnish with basil.",
    lunchId⟩,
   ⟨firstId + 4, "Synthwave Stir-Fry",
    "Fast, bright, and packed with crunch—weeknight hero.",
    some "https://images.unsplash.com/photo-1512621776951-a57141f2eefd?auto=format&fit=crop&w=1200&q=60",
    nl ["2 cups mixed veggies", "1 tbsp soy sauce", "1 tsp honey",
      "1 tsp sesame oil", "1 clove garlic", "Cooked rice to serve"],
    "Stir-fry veggies hot and quick. Add garlic, then soy sauce, honey, and sesame oil. Toss, serve over rice.",
    dinnerId⟩,
   ⟨firstId + 5, "Arcade Brownie Squares",
    "Fudgy brownies with crispy edges—high score dessert.",
    some "https://images.unsplash.com/photo-1606313564200-e75d5e30476c?auto=format&fit=crop&w=1200&q=60",
    nl ["1/2 cup butter", "1 cup sugar", "2 eggs", "1/3 cup cocoa powder",
      "1/2 cup flour", "Pinch of salt"],
    "Mix melted butter + sugar. Beat in eggs. Fold in cocoa, flour, salt. Bake at 175°C / 350°F for ~20-25 minutes.",
    dessertId⟩,
   ⟨firstId + 6, "Minty Pixel Milkshake",
    "Cool mint shake with chocolate chip crunch.",
    some "https://images.unsplash.com/photo-1589733955941-5eeaf752f6dd?auto=format&fit=crop&w=1200&q=60",
    nl ["2 cups vanilla ice cream", "3/4 cup milk", "1/2 tsp peppermint extract",
      "Chocolate chips"],
    "Blend ice cream, milk, and peppermint. Stir in chips. Serve cold.",
    drinksId⟩]

/-- Body of `seed_if_empty` (`src/seed.py`) with the store state seen by
the category flush passed separately from the one seen by the emptiness
check, so that a concurrent startup committing between the two steps is
expressible.  The flush raises an `IntegrityError` when a category name is
already present (unique constraint on `Category.name`); the source wraps
the flush in no try/except, so that error propagates to the caller. -/
def seed_if_empty_during_race (dbCheck dbFlush : Store) : Except ApiError Store :=
  match dbCheck.categories.head? with
  | some _ => .ok dbFlush
  | none =>
    let cats := seed_categories dbFlush.nextCategoryId
    if cats.any (fun c => dbFlush.categories.any (fun c0 => c0.name == c.name)) then
      .error .integrityError
    else
      let n := dbFlush.nextCategoryId
      let recs := seed_recipes dbFlush.nextRecipeId n (n + 1) (n + 2) (n + 3) (n + 4)
      .ok ⟨dbFlush.categories ++ cats, dbFlush.recipes ++ recs, dbFlush.favorites,
        n + 5, dbFlush.nextRecipeId + 7, dbFlush.nextFavoriteId⟩

/-- `seed_if_empty` (`src/seed.py`) as run without interference: the check
(`select(Category).limit(1)`) and the inserts observe the same store. -/
def seed_if_empty (db : Store) : Except ApiError Store :=
  seed_if_empty_during_race db db

/-- Recipe-id comparison used by `order_by(Recipe.id.asc())` is decidable. -/
instance relIdDecidable : DecidableRel (fun a b : RecipeRow => a.id ≤ b.id) :=
  fun a b => Int.decLe a.id b.id

/-- Recipe-id comparison is total. -/
instance relIdTotal : IsTotal RecipeRow (fun a b : RecipeRow => a.id ≤ b.id) :=
  ⟨fun a b => Int.le_total a.id b.id⟩

/-- Recipe-id comparison is transitive. -/
instance relIdTrans : IsTrans RecipeRow (fun a b : RecipeRow => a.id ≤ b.id) :=
  ⟨fun _ _ _ h1 h2 => le_trans h1 h2⟩

/-- Matching the empty pattern accepts exactly the empty string. -/
theorem ilikeMatch_nil (s : List Char) : ilikeMatch [] s = s.isEmpty :=
  rfl

/-- Unfolding rule for a leading `%` in the pattern. -/
theorem ilikeMatch_percent_step (ps s : List Char) :
    ilikeMatch ('%' :: ps) s = s.tails.any (fun t => ilikeMatch ps t) := by
  cases ps <;> cases s <;> simp [ilikeMatch]

/-- Unfolding rule for a plain leading pattern character against the empty
string. -/
theorem ilikeMatch_plain_nil (c : Char) (ps : List Char) (h1 : c ≠ '%') (h2 : c ≠ '\\') :
    ilikeMatch (c :: ps) [] = false := by
  cases ps <;> simp [ilikeMatch, h1, h2]

/-- Unfolding rule for a plain leading pattern character against a
non-empty string. -/
theorem ilikeMatch_plain_cons (c d : Char) (ps s2 : List Char) (h1 : c ≠ '%') (h2 : c ≠ '\\') :
    ilikeMatch (c :: ps) (d :: s2) =
      ((if c = '_' then true else lowerChar c == lowerChar d) && ilikeMatch ps s2) := by
  cases ps <;> simp [ilikeMatch, h1, h2]

/-- A leading `%` matches by matching the rest of the pattern against some
suffix of the string. -/
theorem ilikeMatch_percent (ps s : List Char) :
    ilikeMatch ('%' :: ps) s = true ↔ ∃ t, t <:+ s ∧ ilikeMatch ps t = true := by
  rw [ilikeMatch_percent_step]
  simp [List.any_eq_true, List.mem_tails]

/-- A metacharacter-free fragment followed by `%` matches exactly the
strings whose case folding starts with the case folding of the fragment. -/
theorem ilikeMatch_fragment (p : List Char) :
    ∀ s : List Char, noMeta p →
      (ilikeMatch (p ++ ['%']) s = true ↔ (p.map lowerChar) <+: (s.map lowerChar)) := by
  induction p with
  | nil =>
    intro s _
    simp only [List.nil_append, List.map_nil, List.nil_prefix, iff_true]
    rw [show (['%'] : List Char) = '%' :: [] from rfl, ilikeMatch_percent]
    exact ⟨[], List.nil_suffix, by simp [ilikeMatch_nil]⟩
  | cons c p ih =>
    intro s hp
    obtain ⟨hpc, hu, he⟩ := hp c (List.mem_cons_self c p)
    have hp' : noMeta p := fun d hd => hp d (List.mem_cons_of_mem c hd)
    cases s with
    | nil =>
      simp only [List.map_cons, List.map_nil, List.prefix_nil, iff_false]
      simp [List.cons_append, ilikeMatch_plain_nil c _ hpc he]
    | cons d s2 =>
      simp only [List.cons_append, List.map_cons, List.cons_prefix_cons]
      rw [ilikeMatch_plain_cons c d _ s2 hpc he]
      simp [hu, Bool.and_eq_true, beq_iff_eq, ih s2 hp']

/-- Suffixes of a mapped list come from suffixes of the list. -/
theorem suffix_of_map {α β : Type} (f : α → β) (t2 : List β) (s : List α)
    (h : t2 <:+ s.map f) : ∃ t, t <:+ s ∧ t2 = t.map f := by
  refine ⟨s.drop (s.length - t2.length), List.drop_suffix _ _, ?_⟩
  have h2 := List.suffix_iff_eq_drop.mp h
  rw [List.length_map] at h2
  rw [List.map_drop]
  exact h2

/-- The full substring pattern `%p%` for metacharacter-free `p` matches
exactly the strings that contain `p` case-insensitively. -/
theorem ilikeMatch_substring (p : List Char) (hp : noMeta p) (s : List Char) :
    ilikeMatch ('%' :: (p ++ ['%'])) s = true ↔
      (p.map lowerChar) <:+: (s.map lowerChar) := by
  rw [ilikeMatch_percent]
  constructor
  · rintro ⟨t, hts, hm⟩
    exact List.infix_iff_prefix_suffix.mpr
      ⟨t.map lowerChar, (ilikeMatch_fragment p t hp).mp hm, List.IsSuffix.map lowerChar hts⟩
  · intro h
    obtain ⟨t2, hpre, hsuf⟩ := List.infix_iff_prefix_suffix.mp h
    obtain ⟨t, hts, rfl⟩ := suffix_of_map lowerChar t2 s hsuf
    exact ⟨t, hts, (ilikeMatch_fragment p t hp).mpr hpre⟩

/-- Stripping only removes characters. -/
theorem mem_of_mem_stripChars {c : Char} {s : List Char} (h : c ∈ stripChars s) :
    c ∈ s := by
  unfold stripChars at h
  have h1 := List.mem_reverse.mp h
  have h2 := List.mem_reverse.mp ((List.dropWhile_sublist _).subset h1)
  exact (List.dropWhile_sublist _).subset h2

/-- Stripping preserves freedom from metacharacters. -/
theorem noMeta_stripChars {s : List Char} (h : noMeta s) : noMeta (stripChars s) :=
  fun c hc => h c (mem_of_mem_stripChars hc)

/-- Stripping a string of whitespace leaves nothing. -/
theorem stripChars_all_space {s : List Char} (h : ∀ c ∈ s, isPySpace c = true) :
    stripChars s = [] := by
  unfold stripChars
  rw [List.dropWhile_eq_nil_iff.mpr (fun x hx => h x hx)]
  simp

/-- The `%%` pattern produced by a query that strips to nothing matches
every string. -/
theorem ilikeMatch_double_percent (s : List Char) :
    ilikeMatch ['%', '%'] s = true :=
  (ilikeMatch_substring [] (fun c hc => absurd hc (List.not_mem_nil c)) s).mpr
     List.nil_infix

/-- A store holding one recipe titled "Milk", used to exhibit the exact
search semantics. -/
def rMilk : RecipeRow := ⟨1, "Milk", "", none, "", "", 1⟩

/-- The store containing `rMilk` and its category. -/
def dbMilk : Store := ⟨[⟨1, "Dairy"⟩], [rMilk], [], 2, 2, 1⟩

/-- The store as it stands after seeding an empty store. -/
def dbSeeded : Store := ⟨seed_categories 1, seed_recipes 1 1 2 3 4 5, [], 6, 8, 1⟩

/-- Fallback row for total list access. -/
def fallbackRecipe : RecipeRow := ⟨0, "", "", none, "", "", 0⟩

/-- The seeded pancake recipe, whose title and ingredient blob contain
"blueberr...". -/
def pancakeRow : RecipeRow := (seed_recipes 1 1 2 3 4 5).headD fallbackRecipe

/-- Claim C1, counterexample: with the store holding the single recipe
titled "Milk", the present query "milk " (trailing blank) selects the
recipe although "milk " is not a case-insensitive substring of the title
or the stored ingredient blob (the code strips the query first), and the
present query "%" selects it although "%" is not a substring of either
(the code treats it as an ILIKE wildcard).  So membership is not
equivalent to case-insensitive substring containment of the raw query. -/
theorem list_recipes_query_substring_cex :
    (rMilk ∈ list_recipes_rows dbMilk none (some "milk ") ∧
      ¬ (("milk ".toList.map lowerChar <:+: rMilk.title.toList.map lowerChar) ∨
        ("milk ".toList.map lowerChar <:+: rMilk.ingredients.toList.map lowerChar))) ∧
    (rMilk ∈ list_recipes_rows dbMilk none (some "%") ∧
      ¬ (("%".toList.map lowerChar <:+: rMilk.title.toList.map lowerChar) ∨
        ("%".toList.map lowerChar <:+: rMilk.ingredients.toList.map lowerChar))) := by
  decide

/-- Claim C1, amended: for every recipe `r` and present (non-empty) query
string `q` containing no ILIKE metacharacter (`%`, `_`, `\`), `r` is in
the list-recipes results exactly when the whitespace-stripped `q` is a
case-insensitive substring of the title of `r` or of the ingredient blob as
stored; in particular a stripped query that would only match across a
newline boundary inside the blob does not match. -/
theorem list_recipes_query_stripped_substring (db : Store) (q : String) (r : RecipeRow)
    (hq : q ≠ "") (hmeta : noMeta q.toList) :
    r ∈ list_recipes_rows db none (some q) ↔
      r ∈ db.recipes ∧
        ((stripChars q.toList).map lowerChar <:+: r.title.toList.map lowerChar ∨
          (stripChars q.toList).map lowerChar <:+: r.ingredients.toList.map lowerChar) := by
  have hp : noMeta (stripChars q.toList) := noMeta_stripChars hmeta
  rw [list_recipes_rows, List.mem_insertionSort, List.mem_filter]
  simp only [matches_category, matches_q, if_neg hq, Bool.true_and, Bool.and_eq_true,
    Bool.or_eq_true, like_pattern]
  rw [ilikeMatch_substring _ hp r.title.toList, ilikeMatch_substring _ hp r.ingredients.toList]

/-- Witness for the amended claim C1: the seeded store, searched with the
case-varied query "BLUEBERRY", returns the pancake recipe. -/
theorem list_recipes_query_stripped_substring_witness :
    pancakeRow ∈ list_recipes_rows dbSeeded none (some "BLUEBERRY") :=
  (list_recipes_query_stripped_substring dbSeeded "BLUEBERRY" pancakeRow
    (by decide) (by decide)).mpr ⟨by decide, Or.inl (by decide)⟩

/-- Category filter expressed propositionally. -/
theorem matches_category_iff (copt : Option Int) (r : RecipeRow) :
    matches_category copt r = true ↔ ∀ c, copt = some c → r.category_id = c := by
  cases copt with
  | none => simp [matches_category]
  | some c => simp [matches_category, beq_iff_eq]

/-- Claim C10: with any category filter, a query that is absent, empty, or
whitespace-only yields identical results — the empty query disables the
filter, and a whitespace-only query strips to a pattern matching every
recipe. -/
theorem list_recipes_blank_query (db : Store) (copt : Option Int) (q : String)
    (hws : ∀ c ∈ q.toList, isPySpace c = true) :
    list_recipes db copt (some q) = list_recipes db copt none ∧
    list_recipes db copt (some "") = list_recipes db copt none := by
  have hall : ∀ qq : Option String, (∀ r : RecipeRow, matches_q qq r = true) →
      list_recipes db copt qq = list_recipes db copt none := by
    intro qq hqq
    unfold list_recipes list_recipes_rows
    congr 2
    apply List.filter_congr
    intro r _
    rw [hqq r, show matches_q none r = true from rfl]
  have hm : ∀ r : RecipeRow, matches_q (some q) r = true := by
    intro r
    by_cases hq : q = ""
    · simp [matches_q, hq]
    · have hstrip : stripChars q.toList = [] := stripChars_all_space hws
      simp only [matches_q, if_neg hq, like_pattern, hstrip, List.nil_append]
      simp [ilikeMatch_double_percent]
  exact ⟨hall (some q) hm, hall (some "") (fun r => by simp [matches_q])⟩

/-- Witness for claim C10 at a whitespace-only query over a concrete
store. -/
theorem list_recipes_blank_query_witness :
    list_recipes dbMilk none (some "  ") = list_recipes dbMilk none none ∧
    list_recipes dbMilk none (some "") = list_recipes dbMilk none none :=
  list_recipes_blank_query dbMilk none "  " (by decide)

/-- Claim C9: for every combination of the optional filters, the results
are ordered by recipe id ascending, and a short-form row is in the output
exactly when the store holds a recipe passing the category filter (exact
equality with the given category id) and the query filter together, with
only id, title, description, image URL and category id carried over. -/
theorem list_recipes_filters_spec (db : Store) (copt : Option Int) (qopt : Option String) :
    (list_recipes db copt qopt).Pairwise (fun a b => a.id ≤ b.id) ∧
    ∀ out, out ∈ list_recipes db copt qopt ↔
      ∃ r, r ∈ db.recipes ∧ (∀ c, copt = some c → r.category_id = c) ∧
        matches_q qopt r = true ∧ out = shortForm r := by
  constructor
  · have hs := List.sorted_insertionSort (fun a b : RecipeRow => a.id ≤ b.id)
      (db.recipes.filter (fun r => matches_category copt r && matches_q qopt r))
    exact List.Pairwise.map shortForm (fun a b h => h) hs
  · intro out
    unfold list_recipes list_recipes_rows
    rw [List.mem_map]
    constructor
    · rintro ⟨r, hr, rfl⟩
      rw [List.mem_insertionSort, List.mem_filter, Bool.and_eq_true] at hr
      exact ⟨r, hr.1, (matches_category_iff copt r).mp hr.2.1, hr.2.2, rfl⟩
    · rintro ⟨r, hmem, hcat, hq, rfl⟩
      refine ⟨r, ?_, rfl⟩
      rw [List.mem_insertionSort, List.mem_filter, Bool.and_eq_true]
      exact ⟨hmem, (matches_category_iff copt r).mpr hcat, hq⟩

/-- Witness for claim C9: the short form of the milk recipe is listed under its
category filter. -/
theorem list_recipes_filters_spec_witness :
    shortForm rMilk ∈ list_recipes dbMilk (some 1) none :=
  ((list_recipes_filters_spec dbMilk (some 1) none).2 (shortForm rMilk)).mpr
    ⟨rMilk, by decide, (matches_category_iff (some 1) rMilk).mp (by decide), by decide, rfl⟩

/-- A store with no recipes at all. -/
def dbNoRecipes : Store := ⟨[], [], [], 1, 1, 1⟩

/-- A favorite row for the milk recipe. -/
def favRow : FavoriteRow := ⟨1, 1, 1⟩

/-- The milk store with that favorite already present. -/
def dbFav : Store := ⟨[⟨1, "Dairy"⟩], [rMilk], [favRow], 2, 2, 2⟩

/-- Claim C3: add-favorite with a recipe id that references no recipe
fails with the not-found error and leaves the store unchanged. -/
theorem add_favorite_unknown_recipe (db : Store) (u rid : Int)
    (h : db.recipes.find? (fun r => r.id == rid) = none) :
    add_favorite ⟨u, rid⟩ db = (.error (.httpException 404 "Recipe not found"), db) := by
  simp [add_favorite, h]

/-- Witness for claim C3 on a store with no recipes. -/
theorem add_favorite_unknown_recipe_witness :
    add_favorite ⟨1, 42⟩ dbNoRecipes =
      (.error (.httpException 404 "Recipe not found"), dbNoRecipes) :=
  add_favorite_unknown_recipe dbNoRecipes 1 42 rfl

/-- Claim C7: when the insert hits the uniqueness violation, add-favorite
answers with the recovery handler applied to the re-read row and an
unchanged store; the handler surfaces the original storage error when the
re-read finds nothing, and returns the existing row as a success when it
finds one. -/
theorem add_favorite_conflict_paths (db : Store) (u rid : Int) (rec : RecipeRow)
    (hrec : db.recipes.find? (fun r => r.id == rid) = some rec)
    (hdup : db.favorites.any (fun f => f.user_id == u && f.recipe_id == rid) = true) :
    add_favorite ⟨u, rid⟩ db =
      (handle_duplicate_favorite rec
        (db.favorites.find? (fun f => f.user_id == u && f.recipe_id == rid)), db) ∧
    handle_duplicate_favorite rec none = .error .integrityError ∧
    ∀ f, handle_duplicate_favorite rec (some f) =
      .ok ⟨f.id, f.user_id, f.recipe_id, rec.title, rec.image_url⟩ := by
  refine ⟨?_, rfl, fun f => rfl⟩
  simp [add_favorite, hrec, hdup]

/-- Witness for claim C7 on a store where the favorite already exists. -/
theorem add_favorite_conflict_paths_witness :
    add_favorite ⟨1, 1⟩ dbFav =
      (handle_duplicate_favorite rMilk
        (dbFav.favorites.find? (fun f => f.user_id == 1 && f.recipe_id == 1)), dbFav) ∧
    handle_duplicate_favorite rMilk none = .error .integrityError :=
  ⟨(add_favorite_conflict_paths dbFav 1 1 rMilk rfl rfl).1,
    (add_favorite_conflict_paths dbFav 1 1 rMilk rfl rfl).2.1⟩

/-- Claim C2: against a store satisfying the uniqueness invariant for the
pair and holding the referenced recipe, two identical add-favorite calls
both succeed, reference the same favorite id, and leave exactly one
favorite row for the pair. -/
theorem add_favorite_idempotent (db : Store) (u rid : Int)
    (hrec : (db.recipes.find? (fun r => r.id == rid)).isSome)
    (hinv : (db.favorites.filter (fun f => f.user_id == u && f.recipe_id == rid)).length ≤ 1) :
    ∃ out1 out2,
      (add_favorite ⟨u, rid⟩ db).1 = .ok out1 ∧
      (add_favorite ⟨u, rid⟩ (add_favorite ⟨u, rid⟩ db).2).1 = .ok out2 ∧
      out1.id = out2.id ∧
      ((add_favorite ⟨u, rid⟩ (add_favorite ⟨u, rid⟩ db).2).2.favorites.filter
        (fun f => f.user_id == u && f.recipe_id == rid)).length = 1 := by
  obtain ⟨rec, hfind⟩ := Option.isSome_iff_exists.mp hrec
  by_cases hdup : db.favorites.any (fun f => f.user_id == u && f.recipe_id == rid) = true
  · have hfsome : (db.favorites.find?
        (fun f => f.user_id == u && f.recipe_id == rid)).isSome := by
      rw [List.find?_isSome]
      exact List.any_eq_true.mp hdup
    obtain ⟨e, hfe⟩ := Option.isSome_iff_exists.mp hfsome
    have hstep : add_favorite ⟨u, rid⟩ db = (.ok (favorite_out e rec), db) := by
      simp [add_favorite, hfind, hdup, hfe, handle_duplicate_favorite]
    have hpe : (e.user_id == u && e.recipe_id == rid) = true :=
      @List.find?_some _ (fun f => f.user_id == u && f.recipe_id == rid) e db.favorites hfe
    have hmem : e ∈ db.favorites.filter (fun f => f.user_id == u && f.recipe_id == rid) :=
      List.mem_filter.mpr ⟨List.mem_of_find?_eq_some hfe, hpe⟩
    have hpos : 0 < (db.favorites.filter
        (fun f => f.user_id == u && f.recipe_id == rid)).length :=
      List.length_pos.mpr (List.ne_nil_of_mem hmem)
    refine ⟨favorite_out e rec, favorite_out e rec, by simp [hstep], by simp [hstep],
      rfl, ?_⟩
    simp only [hstep]
    omega
  · rw [Bool.not_eq_true] at hdup
    have hnone : db.favorites.find? (fun f => f.user_id == u && f.recipe_id == rid) = none :=
      List.find?_eq_none.mpr (fun x hx => by
        have hfx := List.any_eq_false.mp hdup x hx
        simpa using hfx)
    have hnil : db.favorites.filter (fun f => f.user_id == u && f.recipe_id == rid) = [] :=
      List.filter_eq_nil_iff.mpr (fun x hx => by
        have hfx := List.any_eq_false.mp hdup x hx
        simpa using hfx)
    have hstep1 : add_favorite ⟨u, rid⟩ db =
        (.ok (favorite_out ⟨db.nextFavoriteId, u, rid⟩ rec),
          ⟨db.categories, db.recipes, db.favorites ++ [⟨db.nextFavoriteId, u, rid⟩],
            db.nextCategoryId, db.nextRecipeId, db.nextFavoriteId + 1⟩) := by
      simp [add_favorite, hfind, hdup]
    have hstep2 : add_favorite ⟨u, rid⟩
        (⟨db.categories, db.recipes, db.favorites ++ [⟨db.nextFavoriteId, u, rid⟩],
          db.nextCategoryId, db.nextRecipeId, db.nextFavoriteId + 1⟩ : Store) =
        (.ok (favorite_out ⟨db.nextFavoriteId, u, rid⟩ rec),
          ⟨db.categories, db.recipes, db.favorites ++ [⟨db.nextFavoriteId, u, rid⟩],
            db.nextCategoryId, db.nextRecipeId, db.nextFavoriteId + 1⟩) := by
      simp [add_favorite, hfind, hdup, handle_duplicate_favorite, hnone,
        List.any_append, List.find?_append]
    refine ⟨favorite_out ⟨db.nextFavoriteId, u, rid⟩ rec,
      favorite_out ⟨db.nextFavoriteId, u, rid⟩ rec,
      by simp [hstep1], by simp [hstep1, hstep2], rfl, ?_⟩
    simp [hstep1, hstep2, List.filter_append, hnil]

/-- Witness for claim C2: favoriting the milk recipe twice from a fresh
store. -/
theorem add_favorite_idempotent_witness :
    ∃ out1 out2,
      (add_favorite ⟨7, 1⟩ dbMilk).1 = .ok out1 ∧
      (add_favorite ⟨7, 1⟩ (add_favorite ⟨7, 1⟩ dbMilk).2).1 = .ok out2 ∧
      out1.id = out2.id ∧
      ((add_favorite ⟨7, 1⟩ (add_favorite ⟨7, 1⟩ dbMilk).2).2.favorites.filter
        (fun f => f.user_id == 7 && f.recipe_id == 1)).length = 1 :=
  add_favorite_idempotent dbMilk 7 1 (by decide) (by decide)

/-- A recipe whose ingredient blob has padding and blank lines. -/
def rMessy : RecipeRow := ⟨2, "Messy", "", none, " a \n\n b\nc ", "", 9⟩

/-- Store holding the messy recipe. -/
def dbMessy : Store := ⟨[⟨9, "Odd"⟩], [rMessy], [], 10, 3, 1⟩

/-- A recipe whose category id references no category row. -/
def rOrphan : RecipeRow := ⟨3, "Orphan", "", none, "x", "", 77⟩

/-- Store holding the orphaned recipe. -/
def dbOrphan : Store := ⟨[⟨1, "Dairy"⟩], [rOrphan], [], 2, 4, 1⟩

/-- Claim C4: get-recipe fails not-found exactly on unknown ids; on a
known id it returns the stored blob split into lines, each trimmed, the
blank ones dropped, order preserved (a sublist of the trimmed lines), so
every returned entry is non-empty. -/
theorem get_recipe_spec (db : Store) (rid : Int) :
    (db.recipes.find? (fun r => r.id == rid) = none →
      get_recipe rid db = .error (.httpException 404 "Recipe not found")) ∧
    ∀ r, db.recipes.find? (fun r0 => r0.id == rid) = some r →
      ∃ out, get_recipe rid db = .ok out ∧
        out.ingredients =
          (((splitlines r.ingredients.toList).map stripChars).filter
            (fun l => !l.isEmpty)).map String.mk ∧
        (∀ s ∈ out.ingredients, s ≠ "") ∧
        out.ingredients.Sublist
          (((splitlines r.ingredients.toList).map stripChars).map String.mk) := by
  constructor
  · intro h
    simp [get_recipe, h]
  · intro r h
    rw [show get_recipe rid db = .ok ⟨r.id, r.title, r.description, r.image_url,
        (((splitlines r.ingredients.toList).map stripChars).filter
          (fun l => !l.isEmpty)).map String.mk,
        r.instructions, r.category_id,
        ((db.categories.find? (fun c => c.id == r.category_id)).map
          (fun c => c.name)).getD ""⟩ from by simp [get_recipe, h]]
    refine ⟨_, rfl, rfl, ?_, ?_⟩
    · intro s hs
      rw [List.mem_map] at hs
      obtain ⟨l, hl, rfl⟩ := hs
      rw [List.mem_filter] at hl
      intro hcon
      have hnil : l = [] := congrArg String.data hcon
      rw [hnil] at hl
      simp at hl
    · exact (List.filter_sublist _).map String.mk

/-- Witness for claim C4: an unknown id fails, and the messy blob comes
back trimmed and free of blanks. -/
theorem get_recipe_spec_witness :
    get_recipe 5 dbMessy = .error (.httpException 404 "Recipe not found") ∧
    ∃ out, get_recipe 2 dbMessy = .ok out ∧
      out.ingredients =
        (((splitlines rMessy.ingredients.toList).map stripChars).filter
          (fun l => !l.isEmpty)).map String.mk ∧
      (∀ s ∈ out.ingredients, s ≠ "") ∧
      out.ingredients.Sublist
        (((splitlines rMessy.ingredients.toList).map stripChars).map String.mk) :=
  ⟨(get_recipe_spec dbMessy 5).1 rfl, (get_recipe_spec dbMessy 2).2 rMessy rfl⟩

/-- Claim C8: get-recipe on a recipe whose category row is missing still
succeeds, with the empty string as category name. -/
theorem get_recipe_missing_category (db : Store) (rid : Int) (r : RecipeRow)
    (hr : db.recipes.find? (fun r0 => r0.id == rid) = some r)
    (hc : db.categories.find? (fun c => c.id == r.category_id) = none) :
    ∃ out, get_recipe rid db = .ok out ∧ out.category_name = "" := by
  rw [show get_recipe rid db = .ok ⟨r.id, r.title, r.description, r.image_url,
      (((splitlines r.ingredients.toList).map stripChars).filter
        (fun l => !l.isEmpty)).map String.mk,
      r.instructions, r.category_id, ""⟩ from by simp [get_recipe, hr, hc]]
  exact ⟨_, rfl, rfl⟩

/-- Witness for claim C8 on the orphaned recipe. -/
theorem get_recipe_missing_category_witness :
    ∃ out, get_recipe 3 dbOrphan = .ok out ∧ out.category_name = "" :=
  get_recipe_missing_category dbOrphan 3 rOrphan rfl rfl

/-- A store holding a single category and nothing else. -/
def dbOneCat : Store := ⟨[⟨1, "Breakfast"⟩], [], [], 2, 1, 1⟩

/-- A store with zero categories but non-zero recipes and favorites. -/
def dbRecipesOnly : Store := ⟨[], [rMilk], [favRow], 1, 5, 3⟩

/-- Claim C5: seeding a store with at least one category changes nothing;
seeding a store with zero category rows — whatever its recipe and favorite
contents — inserts exactly five categories and seven recipes and leaves
favorites untouched. -/
theorem seed_if_empty_spec (db : Store) :
    (db.categories ≠ [] → seed_if_empty db = .ok db) ∧
    (db.categories = [] → ∃ db2, seed_if_empty db = .ok db2 ∧
      db2.categories.length = 5 ∧ db2.recipes.length = db.recipes.length + 7 ∧
      db2.favorites = db.favorites) := by
  constructor
  · intro h
    unfold seed_if_empty seed_if_empty_during_race
    cases hc : db.categories with
    | nil => exact absurd hc h
    | cons a l => simp [hc]
  · intro h
    refine ⟨⟨db.categories ++ seed_categories db.nextCategoryId,
      db.recipes ++ seed_recipes db.nextRecipeId db.nextCategoryId (db.nextCategoryId + 1)
        (db.nextCategoryId + 2) (db.nextCategoryId + 3) (db.nextCategoryId + 4),
      db.favorites, db.nextCategoryId + 5, db.nextRecipeId + 7, db.nextFavoriteId⟩,
      ?_, ?_, ?_, rfl⟩
    · unfold seed_if_empty seed_if_empty_during_race
      simp [h, seed_categories, List.any_cons, List.any_nil]
    · simp [h, seed_categories]
    · simp [seed_recipes, List.length_append]

/-- Witness for claim C5: a store with one category is untouched, and a
store with recipes and favorites but no categories is still seeded. -/
theorem seed_if_empty_spec_witness :
    seed_if_empty dbOneCat = .ok dbOneCat ∧
    (∃ db2, seed_if_empty dbRecipesOnly = .ok db2 ∧ db2.categories.length = 5 ∧
      db2.recipes.length = dbRecipesOnly.recipes.length + 7 ∧
      db2.favorites = dbRecipesOnly.favorites) :=
  ⟨(seed_if_empty_spec dbOneCat).1 (by decide), (seed_if_empty_spec dbRecipesOnly).2 rfl⟩

/-- Claim C6 evaluated: when the emptiness check sees an empty store but a
concurrent startup has committed the "Breakfast" category before the
flush, the uniqueness violation propagates out of the seeder as a storage
error instead of being treated as "already seeded". -/
theorem seed_uniqueness_violation_propagates :
    seed_if_empty_during_race dbNoRecipes dbOneCat = .error .integrityError :=
  rfl

end RecipeApp
